import Mathlib

/-!
Verification of the resilience layer of the `nowpayments-api` client library.

The definitions below are a shallow embedding of the JavaScript sources:
* `lib/index.js` — the HTTP request executor (`_makeRequest`, `_retryRequest`,
  `_isRetryable`, `verifyIPN`);
* `lib/constants.js` — the exported configuration constants;
* `lib/errors.js` — the `APIError` class;
* `lib/utils.js` — `generateSignature` / `sortObject`;
* `lib/WebSocketClient.js` — the connection lifecycle manager.

Stateful code is embedded as explicit state passing, fallible code as
`Except`, and the JavaScript dynamic values that matter (error `code`
properties that may be numbers, strings or `undefined`) as a small sum type.
-/

namespace NowPayments

/-! ### JavaScript value model for error codes

In `lib/index.js` the retry classifier reads `error.code`, which at runtime is
a number (for `APIError`, whose constructor stores the HTTP status in `code`),
a string (Node network error codes such as `ECONNREFUSED`), or `undefined`
(plain `Error` objects). Comparing a non-numeric string or `undefined` with a
number with `>=` / `<=` coerces to `NaN` and yields `false`; `===` against a
number is `false` for any non-number. -/

inductive JsValue where
  | num (n : Int)
  | str (s : String)
  | undefined
deriving DecidableEq, Repr

/-- JavaScript `x === n` for a number literal `n`. -/
def jsStrictEqNum : JsValue → Int → Bool
  | .num n, m => n == m
  | _, _ => false

/-- JavaScript `x >= n` for a number literal `n`; non-numeric strings and
`undefined` coerce to `NaN`, making the comparison `false`. -/
def jsGeNum : JsValue → Int → Bool
  | .num n, m => m ≤ n
  | _, _ => false

/-- JavaScript `x <= n` for a number literal `n`; see `jsGeNum`. -/
def jsLeNum : JsValue → Int → Bool
  | .num n, m => n ≤ m
  | _, _ => false

/-! ### Response bodies and errors (`lib/errors.js`) -/

/-- The body of an HTTP response from the remote service: the `message` field
read by `_makeRequest` plus the remaining structured payload. -/
structure RespBody where
  message : String
  extra : List (String × String)
deriving DecidableEq, Repr

/-- The `APIError` class of `lib/errors.js`: `super(message, statusCode,
responseData)` stores `code := statusCode` and `data := responseData`, then
the subclass stores `statusCode` and `responseData` again. -/
structure APIErr where
  name : String
  message : String
  code : JsValue
  data : Option RespBody
  statusCode : Int
  responseData : Option RespBody
deriving DecidableEq, Repr

/-- The `APIError` constructor `new APIError(message, statusCode, responseData)`. -/
def mkAPIErr (message : String) (statusCode : Int) (responseData : Option RespBody) : APIErr :=
  { name := "APIError", message := message, code := .num statusCode,
    data := responseData, statusCode := statusCode, responseData := responseData }

/-- The errors that can escape `_makeRequest` / `_retryRequest`: a wrapped
`APIError`, a plain transport-level error (network failure, with its dynamic
`code` property), or a `TypeError` raised by an undefined property access. -/
inductive JsError where
  | apiError (e : APIErr)
  | plainError (message : String) (code : JsValue)
  | typeError (message : String)
deriving DecidableEq, Repr

/-- The `error.code` property as read by `_isRetryable`. -/
def JsError.jsCode : JsError → JsValue
  | .apiError e => e.code
  | .plainError _ c => c
  | .typeError _ => .undefined

/-- `_isRetryable(error)` from `lib/index.js`:
`error.code === 429 || (error.code >= 500 && error.code <= 599)`. -/
def isRetryable (e : JsError) : Bool :=
  jsStrictEqNum e.jsCode 429 || (jsGeNum e.jsCode 500 && jsLeNum e.jsCode 599)

/-! ### One dispatch (`_makeRequest`) -/

/-- Outcome of one transport dispatch (`this.client.request(config)`):
a 2xx response, an HTTP error response (`error.response` present, carrying
status and body), or a network-level failure without an HTTP response
(connection errors, or a response too malformed for the transport to
deliver), carrying the dynamic Node error `code`. -/
inductive AxiosOutcome where
  | success (data : RespBody)
  | httpFailure (status : Int) (data : RespBody)
  | networkFailure (message : String) (code : JsValue)
deriving DecidableEq, Repr

/-- `_makeRequest(config)` from `lib/index.js`: returns `response.data` on
success; on an error with a response, throws
`new APIError(error.response.data.message, error.response.status, error.response.data)`;
otherwise rethrows the network error. -/
def makeRequest : AxiosOutcome → Except JsError RespBody
  | .success d => .ok d
  | .httpFailure status data => .error (.apiError (mkAPIErr data.message status (some data)))
  | .networkFailure msg code => .error (.plainError msg code)

/-! ### Retry configuration (`lib/constants.js`) -/

/-- Shape of the retry configuration object read by `_retryRequest`. -/
structure RetryCfg where
  INITIAL_DELAY : Int
  BACKOFF_FACTOR : Int
deriving DecidableEq, Repr

/-- `lib/constants.js` exports `DEFAULT_CONFIG` (whose `RETRY` sub-object has
`MAX_RETRIES: 3, BACKOFF_FACTOR: 2, INITIAL_DELAY: 1000`) but exports no
binding named `RETRY_CONFIG`; the property access `constants.RETRY_CONFIG`
performed by `_retryRequest` therefore evaluates to `undefined`. -/
def RETRY_CONFIG : Option RetryCfg := none

/-- The `RETRY` sub-object of `DEFAULT_CONFIG` in `lib/constants.js`
(`INITIAL_DELAY: 1000`, `BACKOFF_FACTOR: 2`; `MAX_RETRIES` is 3). -/
def DEFAULT_CONFIG_RETRY : RetryCfg := { INITIAL_DELAY := 1000, BACKOFF_FACTOR := 2 }

/-- Evaluation of the sleep argument in `_retryRequest`:
`constants.RETRY_CONFIG.INITIAL_DELAY * Math.pow(constants.RETRY_CONFIG.BACKOFF_FACTOR, attempt - 1)`.
Since `constants.RETRY_CONFIG` is `undefined`, reading `.INITIAL_DELAY` from
it throws a `TypeError`. -/
def retryDelay (attempt : Nat) : Except JsError Int :=
  match RETRY_CONFIG with
  | none => .error (.typeError "Cannot read properties of undefined (reading INITIAL_DELAY)")
  | some cfg => .ok (cfg.INITIAL_DELAY * cfg.BACKOFF_FACTOR ^ (attempt - 1))

/-! ### The retry loop (`_retryRequest`) -/

/-- Observable outcome of one executor run: the settled result (`.ok none` is
the `undefined` resolution when the `for` loop body never runs), the number of
dispatch calls made, and the list of backoff delays actually awaited. -/
structure RunResult where
  result : Except JsError (Option RespBody)
  dispatches : Nat
  delays : List Int
deriving Repr

/-- The body of `_retryRequest`'s `for (let attempt = 1; attempt <= retries; attempt++)`
loop. `dispatch n` is the transport outcome of the `n`-th dispatch. The `fuel`
argument counts the loop iterations still permitted, i.e. `retries + 1 - attempt`;
it is `0` exactly when the loop guard `attempt <= retries` fails. Each iteration:
try `_makeRequest`; on success return its data; on error, if
`attempt === retries || !this._isRetryable(error)` rethrow the error, else
evaluate the sleep argument (which throws, see `retryDelay`), await it, and
continue with the next attempt. -/
def retryLoop (dispatch : Nat → AxiosOutcome) (retries : Nat) : Nat → Nat → RunResult
  | _, 0 => ⟨.ok none, 0, []⟩
  | attempt, fuel + 1 =>
    match makeRequest (dispatch attempt) with
    | .ok d => ⟨.ok (some d), 1, []⟩
    | .error e =>
      if attempt == retries || !(isRetryable e) then ⟨.error e, 1, []⟩
      else
        match retryDelay attempt with
        | .error te => ⟨.error te, 1, []⟩
        | .ok d =>
          let rest := retryLoop dispatch retries (attempt + 1) fuel
          ⟨rest.result, rest.dispatches + 1, d :: rest.delays⟩

/-- `_retryRequest(config, retries)` from `lib/index.js` (default `retries = 3`). -/
def retryRequest (dispatch : Nat → AxiosOutcome) (retries : Nat) : RunResult :=
  retryLoop dispatch retries 1 retries

/-- Spec classification of a first-dispatch terminal failure: a 4xx status
other than 429, or a network-level failure (whose Node `code` is a
non-numeric string or absent) that the transport does not itself retry. -/
def terminalOutcome : AxiosOutcome → Bool
  | .httpFailure st _ => (400 ≤ st && st < 500) && st != 429
  | .networkFailure _ (.str _) => true
  | .networkFailure _ .undefined => true
  | _ => false

/-- Whether an executor result delivers a wrapped `APIError` to the caller. -/
def carriesApiError : Except JsError (Option RespBody) → Bool
  | .error (.apiError _) => true
  | _ => false

/-- Concrete dispatch sequence for the spec's end-to-end scenario: HTTP 503 on
attempts 1 and 2, HTTP 200 with a payload on attempt 3. -/
def dispatch503 : Nat → AxiosOutcome := fun attempt =>
  if attempt ≤ 2 then .httpFailure 503 ⟨"Service Unavailable", []⟩
  else .success ⟨"ok", []⟩

/-! ### Connection lifecycle manager (`lib/WebSocketClient.js`)

The `NOWPaymentsWebSocket` class is embedded as explicit state passing: each
handler maps a state to a new state plus the list of observable actions it
performs (events emitted to subscribers, plus the transport `ping()` call).
Timers are modeled as explicit armed/scheduled fields, and `removeAllListeners`
as a flag that gates every transport callback. -/

/-- Constructor options with their defaults (`maxReconnectAttempts: 5,
reconnectDelay: 1000, pingInterval: 30000, pongTimeout: 5000`). -/
structure WSOptions where
  maxReconnectAttempts : Nat
  reconnectDelay : Nat
  pingInterval : Nat
  pongTimeout : Nat
deriving DecidableEq, Repr

/-- The defaults applied by the constructor when no options are given. -/
def defaultWSOptions : WSOptions :=
  { maxReconnectAttempts := 5, reconnectDelay := 1000, pingInterval := 30000,
    pongTimeout := 5000 }

/-- Observable actions: events emitted to subscribers plus the transport
`ping()` call sent by the heartbeat. -/
inductive Action where
  | evtConnected
  | evtDisconnected (reason : String)
  | evtReconnecting (attempt : Nat)
  | evtPong (latency : Int)
  | evtError (code : String) (message : String)
  | evtPaymentUpdate
  | pingSent
deriving DecidableEq, Repr

/-- The mutable instance state of `NOWPaymentsWebSocket`:
`ws` — whether `this.ws` is non-null; `listeners` — whether the handlers
installed by `_setupEventHandlers` are still attached (cleared by
`removeAllListeners` in `close()`); the `reconnectAttempts` counter;
`isConnected`; `lastPing`; and the timers. Pong timeouts are modeled with
explicit identities, because each heartbeat tick runs
`this.pongTimeout = setTimeout(...)` without clearing the previous timer:
`pongTimers` lists every live (scheduled, uncancelled, unfired) pong-timeout
timer, `pongHandle` is the handle stored in `this.pongTimeout` (only the
last-armed timer; earlier ones are orphaned by the overwrite), and
`nextTimerId` supplies fresh identities. The ping interval is an armed flag
and the reconnect timer carries its scheduled delay (ms). -/
structure WSClient where
  opts : WSOptions
  ws : Bool
  listeners : Bool
  reconnectAttempts : Nat
  isConnected : Bool
  lastPing : Option Int
  pongTimers : List Nat
  pongHandle : Option Nat
  nextTimerId : Nat
  pingIntervalArmed : Bool
  reconnectTimer : Option Nat
deriving DecidableEq, Repr

/-- The constructor: no socket, no timers, counter at 0. -/
def initClient (opts : WSOptions) : WSClient :=
  { opts := opts, ws := false, listeners := false, reconnectAttempts := 0,
    isConnected := false, lastPing := none, pongTimers := [],
    pongHandle := none, nextTimerId := 0,
    pingIntervalArmed := false, reconnectTimer := none }

/-- `clearTimeout(this.pongTimeout)`: cancel the timer the stored handle
references. Timers the handle no longer references (orphaned by a later
tick's overwrite) are untouched; the handle variable itself is not nulled. -/
def clearStoredPong (s : WSClient) : WSClient :=
  match s.pongHandle with
  | some id => { s with pongTimers := s.pongTimers.filter (· != id) }
  | none => s

/-- `close()`: clear the ping interval, `clearTimeout(this.pongTimeout)` (only
the stored handle's timer) and the reconnect timer; if a socket exists, remove
all listeners, close the transport and null the socket; finally
`isConnected = false`. Emits nothing. -/
def wsClose (s : WSClient) : WSClient :=
  let s1 := clearStoredPong { s with pingIntervalArmed := false,
                                     reconnectTimer := none }
  let s2 := if s1.ws then { s1 with listeners := false, ws := false } else s1
  { s2 with isConnected := false }

/-- `connect()`: close any existing socket first, then create the socket,
attach the handlers (`_setupEventHandlers`) and start the ping interval
(`_startPingPong`). Note that `reconnectAttempts` is not touched here. -/
def connect (s : WSClient) : WSClient :=
  let s1 := if s.ws then wsClose s else s
  { s1 with ws := true, listeners := true, pingIntervalArmed := true }

/-- `_handleDisconnect(code, reason)`: drop `isConnected`, clear the heartbeat
timers, emit `disconnected(reason)`, clear any pending reconnect timer; then,
if attempts remain, increment the counter, compute
`reconnectDelay * 2 ** (reconnectAttempts - 1)`, emit `reconnecting` and arm
the reconnect timer; otherwise emit a `MaxReconnectError` error. The `code`
parameter is unused by the body. -/
def handleDisconnect (_code : Int) (reason : String) (s : WSClient) :
    WSClient × List Action :=
  let s1 := clearStoredPong { s with isConnected := false,
                                     pingIntervalArmed := false,
                                     reconnectTimer := none }
  if s1.reconnectAttempts < s1.opts.maxReconnectAttempts then
    let attempts := s1.reconnectAttempts + 1
    let delay := s1.opts.reconnectDelay * 2 ^ (attempts - 1)
    ({ s1 with reconnectAttempts := attempts, reconnectTimer := some delay },
      [.evtDisconnected reason, .evtReconnecting attempts])
  else
    (s1, [.evtDisconnected reason,
          .evtError "MaxReconnectError" "Maximum reconnection attempts reached"])

/-- The `open` handler: `isConnected = true`, reset `reconnectAttempts` to 0,
emit `connected`. Fires only while the handlers are attached. -/
def onOpen (s : WSClient) : WSClient × List Action :=
  if s.ws && s.listeners then
    ({ s with isConnected := true, reconnectAttempts := 0 }, [.evtConnected])
  else (s, [])

/-- The `pong` handler: cancel the pong timeout, emit `pong` with
`Date.now() - this.lastPing` (a null `lastPing` coerces to 0). -/
def onPong (now : Int) (s : WSClient) : WSClient × List Action :=
  if s.ws && s.listeners then
    (clearStoredPong s, [.evtPong (now - s.lastPing.getD 0)])
  else (s, [])

/-- The `close` handler: delegates to `_handleDisconnect(code, reason)`. -/
def onClose (code : Int) (reason : String) (s : WSClient) : WSClient × List Action :=
  if s.ws && s.listeners then handleDisconnect code reason s else (s, [])

/-- One tick of the `setInterval` armed by `_startPingPong`: if `isConnected`,
record `lastPing`, send `this.ws.ping()` and arm a fresh pong timeout with
`this.pongTimeout = setTimeout(...)` — there is no guard on a still-pending
probe, the previous timer is not cleared, and only the handle is overwritten,
orphaning the earlier timer. -/
def intervalTick (now : Int) (s : WSClient) : WSClient × List Action :=
  if s.pingIntervalArmed then
    if s.isConnected then
      ({ s with lastPing := some now,
                pongTimers := s.pongTimers ++ [s.nextTimerId],
                pongHandle := some s.nextTimerId,
                nextTimerId := s.nextTimerId + 1 }, [.pingSent])
    else (s, [])
  else (s, [])

/-- Expiry of a live pong-timeout timer `id` — whether it is the one the
handle stores or an earlier timer orphaned by a later tick's overwrite. The
fired timer is consumed and its callback runs
`this._handleDisconnect(1001, 'Pong timeout')` on the current client state. -/
def pongTimerFire (id : Nat) (s : WSClient) : WSClient × List Action :=
  if s.pongTimers.contains id then
    handleDisconnect 1001 "Pong timeout"
      { s with pongTimers := s.pongTimers.filter (· != id) }
  else (s, [])

/-- Expiry of the reconnect timer armed by `_handleDisconnect`: `this.connect()`. -/
def reconnectTimerFire (s : WSClient) : WSClient × List Action :=
  match s.reconnectTimer with
  | some _ => (connect { s with reconnectTimer := none }, [])
  | none => (s, [])

/-- External stimuli driving the manager: the two public calls, the transport
callbacks, and the three timer expiries. -/
inductive WSEvent where
  | connectCall
  | closeCall
  | transportOpen
  | transportClose (code : Int) (reason : String)
  | transportPong (now : Int)
  | tick (now : Int)
  | pongDeadline (id : Nat)
  | reconnectDue
deriving DecidableEq, Repr

/-- Dispatch one stimulus to the corresponding handler. -/
def wsStep (s : WSClient) : WSEvent → WSClient × List Action
  | .connectCall => (connect s, [])
  | .closeCall => (wsClose s, [])
  | .transportOpen => onOpen s
  | .transportClose c r => onClose c r s
  | .transportPong now => onPong now s
  | .tick now => intervalTick now s
  | .pongDeadline id => pongTimerFire id s
  | .reconnectDue => reconnectTimerFire s

/-- Run a sequence of stimuli, collecting all actions. -/
def wsRun (s : WSClient) : List WSEvent → WSClient × List Action
  | [] => (s, [])
  | e :: es =>
    let p := wsStep s e
    let q := wsRun p.1 es
    (q.1, p.2 ++ q.2)

/-- Recognizer for the terminal max-reconnect error emission. -/
def isMaxReconnectError : Action → Bool
  | .evtError c _ => c == "MaxReconnectError"
  | _ => false

/-- Number of `MaxReconnectError` emissions in an action list. -/
def countMaxReconnect (as : List Action) : Nat :=
  (as.filter isMaxReconnectError).length

/-- Erase the free-form reason payload of `disconnected` events, keeping the
event shape; used to compare the two disconnect trigger paths. -/
def actionShape : Action → Action
  | .evtDisconnected _ => .evtDisconnected ""
  | a => a

/-- Five consecutive transport-close events starting from a connected session,
every scheduled reconnection firing and failing (closing) again. -/
def fiveCloseRun : List WSEvent :=
  [.connectCall, .transportOpen,
   .transportClose 1006 "connection lost", .reconnectDue,
   .transportClose 1006 "connection lost", .reconnectDue,
   .transportClose 1006 "connection lost", .reconnectDue,
   .transportClose 1006 "connection lost", .reconnectDue,
   .transportClose 1006 "connection lost"]

/-- The same scenario continued by the fifth reconnection attempt also failing:
its timer fires and the resulting socket closes — six transport-close events
in total. -/
def sixCloseRun : List WSEvent :=
  fiveCloseRun ++ [.reconnectDue, .transportClose 1006 "connection lost"]

/-- With `pingInterval = 100` and `pongTimeout = 5000`: connect, open, two
heartbeat ticks (the second overwriting the pong-timeout handle and orphaning
timer 0), then `close()`. -/
def orphanRun : List WSEvent :=
  [.connectCall, .transportOpen, .tick 100, .tick 200, .closeCall]

/-! ### IPN signature canonicalization (`lib/utils.js`) -/

/-- JSON values as handled by `sortObject` / `JSON.stringify`: primitives,
arrays, and objects given as key/value entry lists in insertion order. -/
inductive Json where
  | null
  | bool (b : Bool)
  | num (n : Int)
  | str (s : String)
  | arr (items : List Json)
  | obj (entries : List (String × Json))
deriving Repr

/-- `sortObject(obj)` from `lib/utils.js`: primitives are returned unchanged,
arrays are mapped recursively, and for objects
`Object.keys(obj).sort().reduce(...)` builds a new object whose keys are in
ascending (lexicographic) order, each mapped to the recursively sorted value
`this.sortObject(obj[key])`. `Array.prototype.sort()` on strings is modeled
by `List.insertionSort (· ≤ ·)`, and `obj[key]` by association-list lookup. -/
def sortObject : Json → Json
  | .null => .null
  | .bool b => .bool b
  | .num n => .num n
  | .str s => .str s
  | .arr items => .arr (items.attach.map fun x => sortObject x.1)
  | .obj entries =>
      .obj ((List.insertionSort (· ≤ ·) (entries.map Prod.fst)).map
        fun k => (k, sortObject ((entries.lookup k).getD .null)))
termination_by j => sizeOf j
decreasing_by
  · rename_i items
    have := List.sizeOf_lt_of_mem x.2
    simp only [Json.arr.sizeOf_spec]
    omega
  · rename_i entries
    simp only [Json.obj.sizeOf_spec]
    induction entries with
    | nil => simp [List.lookup]
    | cons p es ih =>
      obtain ⟨a, v⟩ := p
      cases hk : k == a
      · have := ih
        simp only [List.lookup, hk, List.cons.sizeOf_spec, Prod.mk.sizeOf_spec] at *
        omega
      · simp only [List.lookup, hk, Option.getD_some, List.cons.sizeOf_spec,
          Prod.mk.sizeOf_spec]
        omega

mutual
/-- Objects (at every nesting depth) have pairwise-distinct keys, as is forced
by JavaScript object semantics. -/
inductive NodupDeep : Json → Prop where
  | null : NodupDeep .null
  | bool (b) : NodupDeep (.bool b)
  | num (n) : NodupDeep (.num n)
  | str (s) : NodupDeep (.str s)
  | arr {items} : NodupDeepList items → NodupDeep (.arr items)
  | obj {entries} : (entries.map Prod.fst).Nodup → NodupDeepEntries entries →
      NodupDeep (.obj entries)

/-- Pointwise `NodupDeep` over an array's items. -/
inductive NodupDeepList : List Json → Prop where
  | nil : NodupDeepList []
  | cons {x xs} : NodupDeep x → NodupDeepList xs → NodupDeepList (x :: xs)

/-- Pointwise `NodupDeep` over an object's values. -/
inductive NodupDeepEntries : List (String × Json) → Prop where
  | nil : NodupDeepEntries []
  | cons {k v es} : NodupDeep v → NodupDeepEntries es → NodupDeepEntries ((k, v) :: es)
end

mutual
/-- Two JSON values contain the same key/value pairs, with object key
orderings allowed to differ at any nesting depth: primitives must be equal,
arrays must match pointwise, and an object on the left is related to an object
on the right when some reordering (`List.Perm`) of a pointwise-related entry
list produces the right-hand entries. -/
inductive KeyPerm : Json → Json → Prop where
  | null : KeyPerm .null .null
  | bool (b) : KeyPerm (.bool b) (.bool b)
  | num (n) : KeyPerm (.num n) (.num n)
  | str (s) : KeyPerm (.str s) (.str s)
  | arr {xs ys} : KeyPermList xs ys → KeyPerm (.arr xs) (.arr ys)
  | obj {es fs gs} : KeyPermEntries es fs → fs.Perm gs → KeyPerm (.obj es) (.obj gs)

/-- Pointwise `KeyPerm` over array items (arrays keep their order). -/
inductive KeyPermList : List Json → List Json → Prop where
  | nil : KeyPermList [] []
  | cons {x y xs ys} : KeyPerm x y → KeyPermList xs ys → KeyPermList (x :: xs) (y :: ys)

/-- Pointwise relation over object entries: keys equal, values `KeyPerm`. -/
inductive KeyPermEntries : List (String × Json) → List (String × Json) → Prop where
  | nil : KeyPermEntries [] []
  | cons (k) {v w es fs} : KeyPerm v w → KeyPermEntries es fs →
      KeyPermEntries ((k, v) :: es) ((k, w) :: fs)
end

/-- Minimal model of the string escaping performed by `JSON.stringify` on
string values (backslash and double quote). -/
def escapeString (s : String) : String :=
  s.foldl (fun acc c =>
    acc ++ (if c = '\\' then "\\\\" else if c = '"' then "\\\"" else String.singleton c)) ""

/-- `JSON.stringify` on the `Json` model: objects are serialized in entry
order, which after `sortObject` is ascending key order. -/
def stringify : Json → String
  | .null => "null"
  | .bool true => "true"
  | .bool false => "false"
  | .num n => toString n
  | .str s => "\"" ++ escapeString s ++ "\""
  | .arr items =>
      "[" ++ String.intercalate "," (items.attach.map fun x => stringify x.1) ++ "]"
  | .obj entries =>
      "\x7b" ++ String.intercalate ","
        (entries.attach.map fun kv => "\"" ++ escapeString kv.1.1 ++ "\":" ++ stringify kv.1.2)
        ++ "\x7d"
termination_by j => sizeOf j
decreasing_by
  · have := List.sizeOf_lt_of_mem x.2
    simp only [Json.arr.sizeOf_spec]
    omega
  · obtain ⟨⟨kk, vv⟩, hmem⟩ := kv
    have := List.sizeOf_lt_of_mem hmem
    simp only [Json.obj.sizeOf_spec, Prod.mk.sizeOf_spec] at *
    omega

/-- `generateSignature(data, secret)` from `lib/utils.js`:
`crypto.createHmac('sha512', secret).update(JSON.stringify(this.sortObject(data))).digest('hex')`.
The HMAC-SHA512 primitive is Node's `crypto` module, an external collaborator,
taken as an explicit function parameter `hmac secret message`. -/
def generateSignature (hmac : String → String → String) (data : Json)
    (secret : String) : String :=
  hmac secret (stringify (sortObject data))

/-- `verifyIPN(ipnData, signature)` from `lib/index.js`: throws when
`this.ipnSecret` is falsy (absent, or the empty string), else returns
`utils.generateSignature(ipnData, this.ipnSecret) === signature`. -/
def verifyIPN (hmac : String → String → String) (ipnSecret : Option String)
    (ipnData : Json) (signature : String) : Except String Bool :=
  match ipnSecret with
  | none => .error "IPN secret key is not configured"
  | some sec =>
    if sec = "" then .error "IPN secret key is not configured"
    else .ok (generateSignature hmac ipnData sec == signature)

/-- Sample IPN payload with nested objects, keys out of sorted order. -/
def ipnSampleA : Json :=
  .obj [("b", .num 1), ("a", .obj [("y", .num 2), ("x", .num 3)])]

/-- The same payload as `ipnSampleA` with both nesting levels reordered. -/
def ipnSampleB : Json :=
  .obj [("a", .obj [("x", .num 3), ("y", .num 2)]), ("b", .num 1)]

/-! ## Supporting lemmas -/

theorem sortObject_arr (items : List Json) :
    sortObject (.arr items) = .arr (items.map sortObject) := by
  simp only [sortObject]
  congr 1
  exact List.attach_map_val items sortObject

theorem sortObject_obj (entries : List (String × Json)) :
    sortObject (.obj entries) =
      .obj ((List.insertionSort (· ≤ ·) (entries.map Prod.fst)).map
        fun k => (k, sortObject ((entries.lookup k).getD .null))) := by
  simp only [sortObject]

theorem keyPermEntries_keys : ∀ {es fs}, KeyPermEntries es fs →
    es.map Prod.fst = fs.map Prod.fst
  | _, _, .nil => rfl
  | _, _, .cons k _ hes => by simp [keyPermEntries_keys hes]

theorem lookup_eq_of_perm {es fs : List (String × Json)} (h : es.Perm fs) :
    ∀ (k : String), (es.map Prod.fst).Nodup → es.lookup k = fs.lookup k := by
  induction h with
  | nil => intro k _; rfl
  | cons a h ih =>
    intro k hn
    obtain ⟨ka, va⟩ := a
    simp only [List.lookup]
    cases hk : k == ka
    · refine ih k ?_
      simp only [List.map_cons, List.nodup_cons] at hn
      exact hn.2
    · rfl
  | swap a b l =>
    intro k hn
    obtain ⟨ka, va⟩ := a
    obtain ⟨kb, vb⟩ := b
    have hne : kb ≠ ka := by
      simp only [List.map_cons, List.nodup_cons, List.mem_cons] at hn
      exact fun he => hn.1 (Or.inl he)
    simp only [List.lookup]
    cases hk1 : k == kb <;> cases hk2 : k == ka <;> simp_all
  | trans h1 h2 ih1 ih2 =>
    intro k hn
    have hn2 := ((h1.map Prod.fst).nodup_iff).mp hn
    exact (ih1 k hn).trans (ih2 k hn2)

theorem sortKeys_eq_of_perm {ks kt : List String} (h : ks.Perm kt) :
    List.insertionSort (· ≤ ·) ks = List.insertionSort (· ≤ ·) kt :=
  List.eq_of_perm_of_sorted
    ((List.perm_insertionSort _ _).trans (h.trans (List.perm_insertionSort _ _).symm))
    (List.sorted_insertionSort _ _) (List.sorted_insertionSort _ _)

mutual
theorem keyPerm_sortObject : ∀ {a b}, KeyPerm a b → NodupDeep a →
    sortObject a = sortObject b
  | _, _, .null, _ => rfl
  | _, _, .bool b, _ => rfl
  | _, _, .num n, _ => rfl
  | _, _, .str s, _ => rfl
  | _, _, .arr h, hn => by
    cases hn with
    | arr hnl => rw [sortObject_arr, sortObject_arr, keyPermList_map h hnl]
  | _, _, @KeyPerm.obj es fs gs h hperm, hn => by
    cases hn with
    | obj hnk hne =>
      have hkeys : es.map Prod.fst = fs.map Prod.fst := keyPermEntries_keys h
      have hpk : (es.map Prod.fst).Perm (gs.map Prod.fst) := by
        rw [hkeys]; exact hperm.map Prod.fst
      have hsort : List.insertionSort (· ≤ ·) (es.map Prod.fst)
          = List.insertionSort (· ≤ ·) (gs.map Prod.fst) := sortKeys_eq_of_perm hpk
      rw [sortObject_obj, sortObject_obj, ← hsort]
      congr 1
      apply List.map_congr_left
      intro k _
      have h1 : sortObject ((es.lookup k).getD .null)
          = sortObject ((fs.lookup k).getD .null) := keyPermEntries_lookups h hne k
      have hnf : (fs.map Prod.fst).Nodup := hkeys ▸ hnk
      have h2 : fs.lookup k = gs.lookup k := lookup_eq_of_perm hperm k hnf
      rw [h1, h2]

theorem keyPermList_map : ∀ {xs ys}, KeyPermList xs ys → NodupDeepList xs →
    xs.map sortObject = ys.map sortObject
  | _, _, .nil, _ => rfl
  | _, _, .cons hxy hxs, hn => by
    cases hn with
    | cons hx hxs2 => simp [keyPerm_sortObject hxy hx, keyPermList_map hxs hxs2]

theorem keyPermEntries_lookups : ∀ {es fs}, KeyPermEntries es fs → NodupDeepEntries es →
    ∀ k, sortObject ((es.lookup k).getD .null) = sortObject ((fs.lookup k).getD .null)
  | _, _, .nil, _, _ => rfl
  | _, _, .cons key hvw hes, hn, k => by
    cases hn with
    | cons hv hes2 =>
      simp only [List.lookup]
      cases hk : k == key
      · exact keyPermEntries_lookups hes hes2 k
      · simpa using keyPerm_sortObject hvw hv
end

theorem filter_ne_idem (l : List Nat) (id : Nat) :
    (l.filter (· != id)).filter (· != id) = l.filter (· != id) := by
  induction l with
  | nil => rfl
  | cons a t ih =>
    by_cases ha : (a != id) = true <;> simp [List.filter_cons, ha, ih]

theorem handleDisconnect_consumed_handle (c cp : Int) (r rp : String) (s : WSClient) (id : Nat)
    (hh : s.pongHandle = some id) :
    (handleDisconnect c r { s with pongTimers := s.pongTimers.filter (· != id) }).1
      = (handleDisconnect cp rp s).1 ∧
    (handleDisconnect c r { s with pongTimers := s.pongTimers.filter (· != id) }).2.map actionShape
      = (handleDisconnect cp rp s).2.map actionShape := by
  by_cases h : s.reconnectAttempts < s.opts.maxReconnectAttempts <;>
    simp [handleDisconnect, clearStoredPong, hh, h, actionShape, filter_ne_idem]

theorem ipnSample_keyPerm : KeyPerm ipnSampleA ipnSampleB :=
  @KeyPerm.obj _ [("b", Json.num 1), ("a", Json.obj [("x", Json.num 3), ("y", Json.num 2)])] _
    (KeyPermEntries.cons "b" (KeyPerm.num 1)
      (KeyPermEntries.cons "a"
        (@KeyPerm.obj _ [("y", Json.num 2), ("x", Json.num 3)] _
          (KeyPermEntries.cons "y" (KeyPerm.num 2)
            (KeyPermEntries.cons "x" (KeyPerm.num 3) KeyPermEntries.nil))
          (List.Perm.swap ("x", Json.num 3) ("y", Json.num 2) []))
        KeyPermEntries.nil))
    (List.Perm.swap ("a", Json.obj [("x", Json.num 3), ("y", Json.num 2)]) ("b", Json.num 1) [])

theorem ipnSampleA_nodup : NodupDeep ipnSampleA :=
  NodupDeep.obj (by decide)
    (NodupDeepEntries.cons (NodupDeep.num 1)
      (NodupDeepEntries.cons
        (NodupDeep.obj (by decide)
          (NodupDeepEntries.cons (NodupDeep.num 2)
            (NodupDeepEntries.cons (NodupDeep.num 3) NodupDeepEntries.nil)))
        NodupDeepEntries.nil))

/-! ## Claim theorems -/

/-- Claim C1 (code bug): the claim states that a request failing with 429/5xx
on attempts `1..maxAttempts-1` and succeeding on attempt `maxAttempts` yields
the success data after exactly `maxAttempts` dispatches. On the code as
written this is false: on the very first retryable failure (HTTP 503,
`retries = 3`) the loop evaluates `constants.RETRY_CONFIG.INITIAL_DELAY`,
which throws a `TypeError` because `constants.js` exports no `RETRY_CONFIG`;
the executor rejects with that `TypeError` after a single dispatch instead of
retrying to success. -/
theorem C1_retry_path_throws_typeError :
    retryRequest dispatch503 3 =
      { result := .error (.typeError
          "Cannot read properties of undefined (reading INITIAL_DELAY)"),
        dispatches := 1, delays := [] } := rfl

/-- Claim C2 (code bug): the claim states that the delay before attempt `k+1`
is `initialDelay * backoffFactor ^ (k-1)` (1000, 2000, 4000, ... with the
default configuration). On the code as written no delay is ever awaited: the
delay expression itself throws a `TypeError` because `constants.RETRY_CONFIG`
is `undefined` — even though `DEFAULT_CONFIG.RETRY` carries the intended
`INITIAL_DELAY = 1000` and `BACKOFF_FACTOR = 2`. -/
theorem C2_no_backoff_delay_typeError :
    (retryRequest dispatch503 3).delays = [] ∧
    retryDelay 1 = .error (.typeError
      "Cannot read properties of undefined (reading INITIAL_DELAY)") ∧
    RETRY_CONFIG = none ∧
    DEFAULT_CONFIG_RETRY.INITIAL_DELAY = 1000 ∧
    DEFAULT_CONFIG_RETRY.BACKOFF_FACTOR = 2 :=
  ⟨rfl, rfl, rfl, rfl, rfl⟩

/-- Claim C3: a request whose first dispatch is a terminal failure (a 4xx
status other than 429, or a network-level failure the transport does not
itself retry) makes the executor return that failure after exactly one
dispatch call, with no retry and no backoff wait. -/
theorem C3_terminal_failure_single_dispatch (dispatch : Nat → AxiosOutcome) (retries : Nat)
    (hr : 1 ≤ retries) (ht : terminalOutcome (dispatch 1) = true) :
    (retryRequest dispatch retries).dispatches = 1 ∧
    (retryRequest dispatch retries).delays = [] ∧
    ∃ e, (retryRequest dispatch retries).result = .error e ∧ isRetryable e = false := by
  obtain ⟨r, rfl⟩ : ∃ r, retries = r + 1 := ⟨retries - 1, by omega⟩
  unfold retryRequest retryLoop
  cases hd : dispatch 1 with
  | success d => rw [hd] at ht; simp [terminalOutcome] at ht
  | httpFailure st data =>
    rw [hd] at ht
    simp only [terminalOutcome, Bool.and_eq_true, bne_iff_ne, decide_eq_true_eq] at ht
    have hret : isRetryable (.apiError (mkAPIErr data.message st (some data))) = false := by
      simp only [isRetryable, JsError.jsCode, mkAPIErr, jsStrictEqNum, jsGeNum, jsLeNum]
      simp only [Bool.or_eq_false_iff, Bool.and_eq_false_iff]
      constructor
      · simp only [beq_eq_false_iff_ne, ne_eq]
        omega
      · left; simp only [decide_eq_false_iff_not]; omega
    simp [makeRequest, hret]
  | networkFailure msg code =>
    rw [hd] at ht
    have hret : isRetryable (.plainError msg code) = false := by
      cases code with
      | num n => simp [terminalOutcome] at ht
      | str s => simp [isRetryable, JsError.jsCode, jsStrictEqNum, jsGeNum, jsLeNum]
      | undefined => simp [isRetryable, JsError.jsCode, jsStrictEqNum, jsGeNum, jsLeNum]
    simp [makeRequest, hret]

/-- Witness for C3 at a concrete input: a single HTTP 404 with `retries = 3`. -/
theorem C3_terminal_failure_single_dispatch_witness :
    (retryRequest (fun _ => .httpFailure 404 ⟨"Not Found", []⟩) 3).dispatches = 1 ∧
    (retryRequest (fun _ => .httpFailure 404 ⟨"Not Found", []⟩) 3).delays = [] ∧
    ∃ e, (retryRequest (fun _ => .httpFailure 404 ⟨"Not Found", []⟩) 3).result = .error e ∧
      isRetryable e = false :=
  C3_terminal_failure_single_dispatch (fun _ => .httpFailure 404 ⟨"Not Found", []⟩) 3
    (by decide) (by decide)

/-- Claim C4, counterexample: a manager that has exhausted its five reconnect
attempts (reached via six transport closes with every reconnection failing)
still has `reconnectAttempts = 5` immediately after `connect()` is re-invoked
— `connect()` does not reinitialize the counter to 0, so if the new socket
closes before opening, the manager emits `MaxReconnectError` again (two
emissions in total) and schedules no reconnect. -/
theorem C4_connect_does_not_reset_attempts_cex :
    ((wsRun (initClient defaultWSOptions) (sixCloseRun ++ [.connectCall])).1).reconnectAttempts
      = 5 ∧
    ((wsRun (initClient defaultWSOptions)
        (sixCloseRun ++ [.connectCall, .transportClose 1006 "connection lost"])).1).reconnectTimer
      = none ∧
    countMaxReconnect (wsRun (initClient defaultWSOptions)
        (sixCloseRun ++ [.connectCall, .transportClose 1006 "connection lost"])).2 = 2 :=
  ⟨rfl, rfl, rfl⟩

/-- Claim C4 as amended: `connect()` itself leaves `reconnectAttempts`
unchanged; the counter is reinitialized to 0 only when the transport reports
`open` on the new socket, so the full reconnection budget is restored only
after a successful connection. -/
theorem C4_attempts_reset_on_open (s : WSClient) :
    (connect s).reconnectAttempts = s.reconnectAttempts ∧
    (onOpen (connect s)).1.reconnectAttempts = 0 := by
  cases hws : s.ws <;> cases hph : s.pongHandle <;>
    simp [connect, wsClose, clearStoredPong, onOpen, hws, hph]

/-- Claim C5, counterexample: with `pingInterval = 100` and
`pongTimeout = 5000`, after connect, open and a first tick the pong timer 0 is
live (the probe is unacknowledged), yet the next interval tick sends a second
ping, arms a second timer 1 and overwrites the handle, orphaning timer 0 —
the tick has no pending-probe guard, refuting the claim that a tick never
sends a new ping while one is outstanding. -/
theorem C5_tick_pings_while_probe_pending_cex :
    ((wsRun (initClient ⟨5, 1000, 100, 5000⟩)
        [.connectCall, .transportOpen, .tick 100]).1).pongTimers = [0] ∧
    (wsStep ((wsRun (initClient ⟨5, 1000, 100, 5000⟩)
        [.connectCall, .transportOpen, .tick 100]).1) (.tick 200)).2 = [.pingSent] ∧
    (wsStep ((wsRun (initClient ⟨5, 1000, 100, 5000⟩)
        [.connectCall, .transportOpen, .tick 100]).1) (.tick 200)).1.pongTimers = [0, 1] ∧
    (wsStep ((wsRun (initClient ⟨5, 1000, 100, 5000⟩)
        [.connectCall, .transportOpen, .tick 100]).1) (.tick 200)).1.pongHandle = some 1 :=
  ⟨rfl, rfl, rfl, rfl⟩

/-- Claim C5 as amended: while the interval is armed and the connection is
flagged connected, every tick sends a ping, arms a fresh pong timer and
overwrites the stored handle with it, regardless of whether a previous probe
is still awaiting its pong (the earlier timer stays live but orphaned);
one-probe-at-a-time is therefore not enforced by the tick and can fail when
`pongTimeout` exceeds `pingInterval`. -/
theorem C5_tick_always_pings_when_connected (now : Int) (s : WSClient)
    (hi : s.pingIntervalArmed = true) (hc : s.isConnected = true) :
    (intervalTick now s).2 = [.pingSent] ∧
    (intervalTick now s).1.pongTimers = s.pongTimers ++ [s.nextTimerId] ∧
    (intervalTick now s).1.pongHandle = some s.nextTimerId := by
  simp [intervalTick, hi, hc]

/-- Witness for C5 at a concrete state with probe 0 already pending. -/
theorem C5_tick_always_pings_when_connected_witness :
    (intervalTick 200
        ⟨defaultWSOptions, true, true, 0, true, some 100, [0], some 0, 1, true, none⟩).2
      = [.pingSent] ∧
    (intervalTick 200
        ⟨defaultWSOptions, true, true, 0, true, some 100, [0], some 0, 1, true,
          none⟩).1.pongTimers = [0, 1] ∧
    (intervalTick 200
        ⟨defaultWSOptions, true, true, 0, true, some 100, [0], some 0, 1, true,
          none⟩).1.pongHandle = some 1 :=
  C5_tick_always_pings_when_connected 200
    ⟨defaultWSOptions, true, true, 0, true, some 100, [0], some 0, 1, true, none⟩ rfl rfl

/-- Claim C6, counterexample: with `maxReconnectAttempts = 5`, after five
consecutive transport-close events (every reconnection failing) the manager
has emitted no `MaxReconnectError` yet and still has a reconnect scheduled
(the fifth attempt, with delay 1000 * 2^4 = 16000 ms) — it has not stopped. -/
theorem C6_five_closes_no_terminal_error_cex :
    countMaxReconnect (wsRun (initClient defaultWSOptions) fiveCloseRun).2 = 0 ∧
    ((wsRun (initClient defaultWSOptions) fiveCloseRun).1).reconnectTimer = some 16000 ∧
    ((wsRun (initClient defaultWSOptions) fiveCloseRun).1).reconnectAttempts = 5 :=
  ⟨rfl, rfl, rfl⟩

/-- Claim C6 as amended: the terminal `MaxReconnectError` is emitted exactly
once only after the sixth transport-close event — the close of the fifth and
last failed reconnection attempt — at which point no further reconnect is
scheduled. -/
theorem C6_six_closes_terminal_error_once :
    countMaxReconnect (wsRun (initClient defaultWSOptions) sixCloseRun).2 = 1 ∧
    ((wsRun (initClient defaultWSOptions) sixCloseRun).1).reconnectTimer = none ∧
    (wsRun (initClient defaultWSOptions) sixCloseRun).2.filter isMaxReconnectError
      = [.evtError "MaxReconnectError" "Maximum reconnection attempts reached"] :=
  ⟨rfl, rfl, rfl⟩

/-- Claim C7: a pong-timeout expiry and a transport-reported close invoke the
identical disconnect handling (`_handleDisconnect`): from any state whose
stored pong handle references a live timer and whose handlers are attached,
the expiry of that timer and a transport close produce equal states — in
particular the same reconnect delay is scheduled under the same exponential
backoff rule — and the emitted action sequences agree up to the free-form
reason string of the `disconnected` event (the fired timer is consumed either
way: once by firing, once by `_handleDisconnect`'s `clearTimeout`). -/
theorem C7_pong_timeout_equals_transport_close (s : WSClient) (id : Nat)
    (code : Int) (reason : String)
    (hh : s.pongHandle = some id) (hp : s.pongTimers.contains id = true)
    (hw : s.ws = true) (hl : s.listeners = true) :
    (pongTimerFire id s).1 = (onClose code reason s).1 ∧
    (pongTimerFire id s).2.map actionShape = (onClose code reason s).2.map actionShape := by
  have hfire : pongTimerFire id s = handleDisconnect 1001 "Pong timeout"
      { s with pongTimers := s.pongTimers.filter (· != id) } := by
    simp only [pongTimerFire, hp]
    simp
  have hclose : onClose code reason s = handleDisconnect code reason s := by
    simp [onClose, hw, hl]
  rw [hfire, hclose]
  exact ⟨(handleDisconnect_consumed_handle 1001 code "Pong timeout" reason s id hh).1,
        (handleDisconnect_consumed_handle 1001 code "Pong timeout" reason s id hh).2⟩

/-- Witness for C7 at a concrete connected state with a live handle timer. -/
theorem C7_pong_timeout_equals_transport_close_witness :
    (pongTimerFire 0 ⟨defaultWSOptions, true, true, 0, true, some 10, [0], some 0, 1, true, none⟩).1
      = (onClose 1006 "gone"
          ⟨defaultWSOptions, true, true, 0, true, some 10, [0], some 0, 1, true, none⟩).1 ∧
    (pongTimerFire 0
        ⟨defaultWSOptions, true, true, 0, true, some 10, [0], some 0, 1, true,
          none⟩).2.map actionShape
      = (onClose 1006 "gone"
          ⟨defaultWSOptions, true, true, 0, true, some 10, [0], some 0, 1, true,
            none⟩).2.map actionShape :=
  C7_pong_timeout_equals_transport_close
    ⟨defaultWSOptions, true, true, 0, true, some 10, [0], some 0, 1, true, none⟩ 0 1006 "gone"
    rfl rfl rfl rfl

/-- Claim C8, counterexample: `close()` does not leave the manager quiescent.
With `pingInterval = 100`, `pongTimeout = 5000` (the reachable configuration
of the C5 counterexample), the second tick overwrites `this.pongTimeout`,
orphaning timer 0; `close()` clears only the stored handle (timer 1), so
timer 0 is still live after `close()` returns — and when it expires it runs
`_handleDisconnect`, emitting `disconnected` and `reconnecting` and scheduling
a reconnect timer, all after `close()`. This refutes both "no timers remain
active" and "no further callbacks fire". -/
theorem C8_orphaned_pong_timer_survives_close_cex :
    ((wsRun (initClient ⟨5, 1000, 100, 5000⟩) orphanRun).1).pongTimers = [0] ∧
    (wsStep ((wsRun (initClient ⟨5, 1000, 100, 5000⟩) orphanRun).1) (.pongDeadline 0)).2
      = [.evtDisconnected "Pong timeout", .evtReconnecting 1] ∧
    (wsStep ((wsRun (initClient ⟨5, 1000, 100, 5000⟩) orphanRun).1)
        (.pongDeadline 0)).1.reconnectTimer = some 1000 :=
  ⟨rfl, rfl, rfl⟩

/-- Claim C8 as amended: `close()` is idempotent on the manager state and
emits nothing (so a second `close()` produces no duplicate `disconnected`);
it clears the ping interval, the reconnect timer and exactly the pong timeout
referenced by the stored handle (which is no longer live afterwards), and
detaches the listeners so every transport callback and the interval and
reconnect timers are no-ops afterwards. But a pong timeout orphaned by a later
tick's handle overwrite is not cancelled: it survives `close()` unchanged, and
its expiry still runs `_handleDisconnect` (see the counterexample). -/
theorem C8_close_idempotent_only_handle_cleared (s : WSClient) :
    wsClose (wsClose s) = wsClose s ∧
    (wsStep s .closeCall).2 = [] ∧
    (wsClose s).pingIntervalArmed = false ∧
    (wsClose s).reconnectTimer = none ∧
    (wsClose s).pongTimers = (clearStoredPong s).pongTimers ∧
    (∀ id, s.pongHandle = some id → (wsClose s).pongTimers.contains id = false) ∧
    (∀ c r now, onOpen (wsClose s) = (wsClose s, []) ∧
      onClose c r (wsClose s) = (wsClose s, []) ∧
      onPong now (wsClose s) = (wsClose s, []) ∧
      intervalTick now (wsClose s) = (wsClose s, []) ∧
      reconnectTimerFire (wsClose s) = (wsClose s, [])) := by
  refine ⟨?_, ?_, ?_, ?_, ?_, ?_, ?_⟩
  · cases hws : s.ws <;> cases hph : s.pongHandle <;>
      simp [wsClose, clearStoredPong, hws, hph, filter_ne_idem]
  · cases hws : s.ws <;> simp [wsStep]
  · cases hws : s.ws <;> cases hph : s.pongHandle <;>
      simp [wsClose, clearStoredPong, hws, hph]
  · cases hws : s.ws <;> cases hph : s.pongHandle <;>
      simp [wsClose, clearStoredPong, hws, hph]
  · cases hws : s.ws <;> cases hph : s.pongHandle <;>
      simp [wsClose, clearStoredPong, hws, hph]
  · intro id hid
    cases hws : s.ws <;>
      simp [wsClose, clearStoredPong, hws, hid, List.contains_eq_any_beq, List.any_filter]
  · intro c r now
    cases hws : s.ws <;> cases hph : s.pongHandle <;>
      simp [wsClose, clearStoredPong, hws, hph, onOpen, onClose, onPong, intervalTick,
        reconnectTimerFire]

/-- Claim C9, counterexample: a request failing with HTTP 503 (a response
carrying status and payload) under `retries = 3` does not deliver that
response's status or payload — the executor rejects with the `RETRY_CONFIG`
`TypeError`, which carries no `APIError` data at all. -/
theorem C9_retryable_failure_drops_api_error_cex :
    (retryRequest dispatch503 3).result
      = .error (.typeError "Cannot read properties of undefined (reading INITIAL_DELAY)") ∧
    carriesApiError (retryRequest dispatch503 3).result = false :=
  ⟨rfl, rfl⟩

/-- Claim C9 as amended: whenever the wrapped `APIError` is actually delivered
— the failure is non-retryable, or occurs on the final attempt (`retries = 1`
for a first-dispatch failure) — it preserves the original response in full:
`statusCode` and `code` equal the response status, `responseData` and `data`
equal the response body, and the message is the body's `message` field.
Retryable failures before the final attempt instead surface the `RETRY_CONFIG`
`TypeError` (see the counterexample). -/
theorem C9_api_error_fields_preserved (dispatch : Nat → AxiosOutcome) (retries : Nat)
    (st : Int) (body : RespBody)
    (hr : 1 ≤ retries) (hd : dispatch 1 = .httpFailure st body)
    (h : isRetryable (.apiError (mkAPIErr body.message st (some body))) = false ∨ retries = 1) :
    (retryRequest dispatch retries).result
      = .error (.apiError (mkAPIErr body.message st (some body))) ∧
    (mkAPIErr body.message st (some body)).statusCode = st ∧
    (mkAPIErr body.message st (some body)).code = .num st ∧
    (mkAPIErr body.message st (some body)).responseData = some body ∧
    (mkAPIErr body.message st (some body)).data = some body ∧
    (mkAPIErr body.message st (some body)).message = body.message := by
  obtain ⟨r, rfl⟩ : ∃ r, retries = r + 1 := ⟨retries - 1, by omega⟩
  unfold retryRequest retryLoop
  rw [hd]
  rcases h with h | h
  · simp only [mkAPIErr] at h
    simp [makeRequest, h, mkAPIErr]
  · have : r = 0 := by omega
    subst this
    simp [makeRequest, mkAPIErr]

/-- Witness for C9 at a concrete input: a 404 response with body. -/
theorem C9_api_error_fields_preserved_witness :
    (retryRequest (fun _ => .httpFailure 404 ⟨"Not Found", []⟩) 3).result
      = .error (.apiError (mkAPIErr "Not Found" 404 (some ⟨"Not Found", []⟩))) ∧
    (mkAPIErr "Not Found" 404 (some ⟨"Not Found", []⟩)).statusCode = 404 ∧
    (mkAPIErr "Not Found" 404 (some ⟨"Not Found", []⟩)).code = .num 404 ∧
    (mkAPIErr "Not Found" 404 (some ⟨"Not Found", []⟩)).responseData = some ⟨"Not Found", []⟩ ∧
    (mkAPIErr "Not Found" 404 (some ⟨"Not Found", []⟩)).data = some ⟨"Not Found", []⟩ ∧
    (mkAPIErr "Not Found" 404 (some ⟨"Not Found", []⟩)).message = "Not Found" :=
  C9_api_error_fields_preserved (fun _ => .httpFailure 404 ⟨"Not Found", []⟩) 3 404
    ⟨"Not Found", []⟩ (by decide) rfl (Or.inl (by decide))

/-- Claim C10: two payloads containing the same key/value pairs with object
keys ordered differently at any nesting depth (and, as JavaScript objects,
duplicate-free keys) produce the identical signature under any secret and any
deterministic HMAC primitive, because `sortObject` canonicalizes them to the
same value before serialization; consequently `verifyIPN` returns the same
accept/reject outcome for both, for every configured secret and header. -/
theorem C10_signature_independent_of_key_order (hmac : String → String → String)
    (secret : String) (ipnSecret : Option String) (sig : String) (a b : Json)
    (h : KeyPerm a b) (hn : NodupDeep a) :
    generateSignature hmac a secret = generateSignature hmac b secret ∧
    verifyIPN hmac ipnSecret a sig = verifyIPN hmac ipnSecret b sig := by
  have hs : sortObject a = sortObject b := keyPerm_sortObject h hn
  have hg : ∀ sec, generateSignature hmac a sec = generateSignature hmac b sec := by
    intro sec; unfold generateSignature; rw [hs]
  refine ⟨hg secret, ?_⟩
  cases ipnSecret with
  | none => rfl
  | some sec =>
    by_cases hsec : sec = ""
    · simp [verifyIPN, hsec]
    · simp only [verifyIPN, if_neg hsec, hg sec]

/-- Witness for C10 at concrete payloads reordered at two nesting depths. -/
theorem C10_signature_independent_of_key_order_witness :
    generateSignature (fun key msg => key ++ ":" ++ msg) ipnSampleA "sec"
      = generateSignature (fun key msg => key ++ ":" ++ msg) ipnSampleB "sec" ∧
    verifyIPN (fun key msg => key ++ ":" ++ msg) (some "sec") ipnSampleA "deadbeef"
      = verifyIPN (fun key msg => key ++ ":" ++ msg) (some "sec") ipnSampleB "deadbeef" :=
  C10_signature_independent_of_key_order (fun key msg => key ++ ":" ++ msg) "sec"
    (some "sec") "deadbeef" ipnSampleA ipnSampleB ipnSample_keyPerm ipnSampleA_nodup

end NowPayments
